import Mathlib

/-!
Shallow embedding of the Spotify MCP server (`src/server/server.ts`; the
Cloudflare worker `src/worker.ts` shares the same zod parsers and
tool-dispatch logic, differing only in transport and store backend).

Times are integers in milliseconds, as returned by `Date.now()`.  The two
in-memory `Map`s of the server (`authSessions`, `pendingAuthStates`) are
modelled as association lists with JavaScript `Map` semantics (`set`
replaces in place, `delete` removes the key).  Outbound HTTP is modelled by
oracles: a refresh oracle and a code-exchange oracle for the accounts token
endpoint, and an API oracle for `api.spotify.com`.  Every request issued to
the API is appended to a log in the server state so theorems can count
upstream calls.  JSON response bodies are modelled by a tagged inductive;
a response whose tag does not match the shape the handler destructures is
mapped to a thrown `TypeError`, mirroring what the untyped JavaScript
property accesses would do.
-/

namespace SpotifyMcp

/-- Association-list model of a JavaScript `Map` keyed by strings. -/
abbrev Store (α : Type) := List (String × α)

namespace Store

/-- `map.get(k)` (and `map.has(k)` via `Option.isSome`). -/
def find? {α : Type} : Store α → String → Option α
  | [], _ => none
  | kv :: rest, k => if kv.1 = k then some kv.2 else find? rest k

/-- `map.set(k, v)`: replaces the value in place when the key is present,
appends otherwise. -/
def insert {α : Type} : Store α → String → α → Store α
  | [], k, v => [(k, v)]
  | kv :: rest, k, v => if kv.1 = k then (k, v) :: rest else kv :: insert rest k v

/-- `map.delete(k)`. -/
def erase {α : Type} : Store α → String → Store α
  | [], _ => []
  | kv :: rest, k => if kv.1 = k then rest else kv :: erase rest k

end Store

/-- A stored OAuth session: `{ accessToken, refreshToken, expiresAt }`
(`expiresAt` in milliseconds since the epoch). -/
structure Session where
  accessToken : String
  refreshToken : String
  expiresAt : Int
  deriving DecidableEq, Repr

/-- A pending authorization `{ sessionId, createdAt }`, stored under the
random `state` token that was embedded in the authorization URL. -/
structure PendingAuth where
  sessionId : String
  createdAt : Int
  deriving DecidableEq, Repr

/-- Body of a successful refresh-token response:
`{ access_token, expires_in }` (`expires_in` in seconds). -/
structure RefreshResponse where
  access_token : String
  expires_in : Int
  deriving DecidableEq, Repr

/-- Body of a successful authorization-code exchange:
`{ access_token, refresh_token, expires_in }`. -/
structure TokenResponse where
  access_token : String
  refresh_token : String
  expires_in : Int
  deriving DecidableEq, Repr

/-- Outcome of `refreshAccessToken` for a given refresh token;
`Except.error statusText` models a non-ok HTTP response from the accounts
token endpoint. -/
abbrev RefreshOracle := String → Except String RefreshResponse

/-- Outcome of `exchangeCodeForToken` for a given authorization code. -/
abbrev ExchangeOracle := String → Except String TokenResponse

/-- A request issued to `api.spotify.com` (the `SPOTIFY_API_BASE` host):
endpoint path with query string, HTTP method, and the `ids` body sent by
the library mutations (`none` for body-less requests). -/
structure ApiRequest where
  endpoint : String
  method : String
  body : Option (List String)
  deriving DecidableEq, Repr

/--
`getValidAccessToken(sessionId)` from `src/server/server.ts:398` (the
worker's copy at `src/worker.ts:470` differs only in the KV store backend).
Returns the access token together with the updated session store and the
number of refresh calls performed (0 or 1).  Throws when no session exists
or when the refresh fails.
-/
def getValidAccessToken (refresh : RefreshOracle) (now : Int)
    (sessions : Store Session) (sessionId : String) :
    Except String (String × Store Session × Nat) :=
  match Store.find? sessions sessionId with
  | none => .error "Not authenticated. Please authenticate with Spotify first."
  | some session =>
    if session.expiresAt ≤ now then
      match refresh session.refreshToken with
      | .error statusText => .error ("Failed to refresh token: " ++ statusText)
      | .ok tokenData =>
        let session' : Session :=
          { session with
            accessToken := tokenData.access_token
            expiresAt := now + tokenData.expires_in * 1000 }
        .ok (session'.accessToken, Store.insert sessions sessionId session', 1)
    else
      .ok (session.accessToken, sessions, 0)

/-- Uppercase hexadecimal digit for `n < 16`. -/
def hexUpperDigit (n : Nat) : Char :=
  if n < 10 then Char.ofNat (48 + n) else Char.ofNat (55 + n)

/-- Percent-encoding of one byte, `%XX` with uppercase hex. -/
def percentEncodeByte (b : UInt8) : String :=
  String.mk ['%', hexUpperDigit (b.toNat / 16), hexUpperDigit (b.toNat % 16)]

/-- UTF-8 bytes of one character. -/
def utf8Bytes (c : Char) : List UInt8 :=
  (String.toUTF8 (String.singleton c)).toList

/-- One character under JavaScript `encodeURIComponent`: the unreserved set
is kept verbatim, everything else is percent-encoded byte-wise.  The
unreserved set includes the apostrophe, written `Char.ofNat 39`. -/
def encodeURIComponentChar (c : Char) : String :=
  if c.isAlphanum ∨ c = '-' ∨ c = '_' ∨ c = '.' ∨ c = '!' ∨ c = '~' ∨
      c = '*' ∨ c = Char.ofNat 39 ∨ c = '(' ∨ c = ')' then
    String.singleton c
  else
    String.join ((utf8Bytes c).map percentEncodeByte)

/-- JavaScript `encodeURIComponent`, used for the search query. -/
def encodeURIComponent (s : String) : String :=
  String.join (s.toList.map encodeURIComponentChar)

/-- One character under `URLSearchParams` serialization
(`application/x-www-form-urlencoded`): alphanumerics and `*-._` kept,
space becomes `+`, everything else percent-encoded byte-wise. -/
def formUrlEncodeChar (c : Char) : String :=
  if c.isAlphanum ∨ c = '*' ∨ c = '-' ∨ c = '.' ∨ c = '_' then
    String.singleton c
  else if c = ' ' then
    "+"
  else
    String.join ((utf8Bytes c).map percentEncodeByte)

/-- `URLSearchParams` serialization of one string. -/
def formUrlEncode (s : String) : String :=
  String.join (s.toList.map formUrlEncodeChar)

/-- The scopes requested by `generateAuthUrl` (`src/server/server.ts:323`). -/
def spotifyScopes : List String :=
  ["user-library-read", "user-library-modify", "user-follow-read",
   "user-follow-modify", "playlist-read-private",
   "playlist-read-collaborative", "playlist-modify-public",
   "playlist-modify-private", "user-read-private", "user-read-email",
   "user-top-read", "user-read-recently-played"]

/-- `generateAuthUrl(state)` (`src/server/server.ts:322`), with the client
id and redirect URI environment values passed explicitly. -/
def generateAuthUrl (clientId redirectUri state : String) : String :=
  let params : List (String × String) :=
    [("client_id", clientId), ("response_type", "code"),
     ("redirect_uri", redirectUri), ("state", state),
     ("scope", String.intercalate " " spotifyScopes),
     ("show_dialog", "true")]
  "https://accounts.spotify.com/authorize?" ++
    String.intercalate "&"
      (params.map (fun kv => formUrlEncode kv.1 ++ "=" ++ formUrlEncode kv.2))

/-- The six item types of the tool input schemas and zod enums. -/
inductive ItemType
  | track
  | album
  | artist
  | playlist
  | show
  | episode
  deriving DecidableEq, Repr

/-- The string of an `ItemType`, as it appears in the JSON arguments. -/
def ItemType.str : ItemType → String
  | .track => "track"
  | .album => "album"
  | .artist => "artist"
  | .playlist => "playlist"
  | .show => "show"
  | .episode => "episode"

/-- Membership test against the zod enum
`["track", "album", "artist", "playlist", "show", "episode"]`. -/
def parseItemType (s : String) : Option ItemType :=
  if s = "track" then some .track
  else if s = "album" then some .album
  else if s = "artist" then some .artist
  else if s = "playlist" then some .playlist
  else if s = "show" then some .show
  else if s = "episode" then some .episode
  else none

/-- Elementwise enum validation of a `types` array. -/
def parseItemTypes : List String → Option (List ItemType)
  | [] => some []
  | s :: rest =>
    match parseItemType s, parseItemTypes rest with
    | some t, some ts => some (t :: ts)
    | _, _ => none

/-- Untyped JSON argument object of a tool call, before zod validation.
A field is `none` when the property is absent. -/
structure RawArgs where
  itemType : Option String
  itemId : Option String
  playlistId : Option String
  offset : Option Int
  limit : Option Int
  query : Option String
  types : Option (List String)
  market : Option String
  deriving DecidableEq, Repr

/-- A `RawArgs` with every property absent (the `?? {}` fallback). -/
def RawArgs.empty : RawArgs :=
  ⟨none, none, none, none, none, none, none, none⟩

/-- Validated arguments of `add_to_library` / `remove_from_library`. -/
structure LibraryArgs where
  itemType : ItemType
  itemId : String
  deriving DecidableEq, Repr

/-- The zod parser `addToLibraryParser`
(`z.object({ itemType: z.enum([...]), itemId: z.string() })`). -/
def addToLibraryParser (r : RawArgs) : Except String LibraryArgs :=
  match r.itemType, r.itemId with
  | some t, some i =>
    match parseItemType t with
    | some itemType => .ok ⟨itemType, i⟩
    | none => .error "Invalid enum value for itemType"
  | _, _ => .error "itemType and itemId are required"

/-- The zod parser `removeFromLibraryParser` (textually identical to
`addToLibraryParser` in the source). -/
def removeFromLibraryParser (r : RawArgs) : Except String LibraryArgs :=
  match r.itemType, r.itemId with
  | some t, some i =>
    match parseItemType t with
    | some itemType => .ok ⟨itemType, i⟩
    | none => .error "Invalid enum value for itemType"
  | _, _ => .error "itemType and itemId are required"

/-- Validated arguments of `fetch_tracks`. -/
structure FetchTracksArgs where
  playlistId : String
  offset : Option Int
  limit : Option Int
  deriving DecidableEq, Repr

/-- The zod parser `fetchTracksParser`
(`playlistId: z.string(), offset: z.number().optional(),
limit: z.number().max(100).optional()`). -/
def fetchTracksParser (r : RawArgs) : Except String FetchTracksArgs :=
  match r.playlistId with
  | none => .error "playlistId is required"
  | some pid =>
    match r.limit with
    | some l =>
      if l ≤ 100 then .ok ⟨pid, r.offset, some l⟩
      else .error "limit must be at most 100"
    | none => .ok ⟨pid, r.offset, none⟩

/-- Validated arguments of `search`. -/
structure SearchArgs where
  query : String
  types : Option (List ItemType)
  limit : Option Int
  market : Option String
  deriving DecidableEq, Repr

/-- The zod parser `searchParser`
(`query: z.string(), types: z.array(z.enum([...])).optional(),
limit: z.number().max(50).optional(), market: z.string().optional()`). -/
def searchParser (r : RawArgs) : Except String SearchArgs :=
  match r.query with
  | none => .error "query is required"
  | some q =>
    match r.types with
    | some ss =>
      match parseItemTypes ss with
      | none => .error "Invalid enum value in types"
      | some ts =>
        match r.limit with
        | some l =>
          if l ≤ 50 then .ok ⟨q, some ts, some l, r.market⟩
          else .error "limit must be at most 50"
        | none => .ok ⟨q, some ts, none, r.market⟩
    | none =>
      match r.limit with
      | some l =>
        if l ≤ 50 then .ok ⟨q, none, some l, r.market⟩
        else .error "limit must be at most 50"
      | none => .ok ⟨q, none, none, r.market⟩

/-- `args.types || ["track", "album", "artist", "playlist"]`; an empty
array is truthy in JavaScript and therefore kept. -/
def searchTypesDefault (types : Option (List ItemType)) : List ItemType :=
  match types with
  | none => [.track, .album, .artist, .playlist]
  | some ts => ts

/-- `args.limit || 20`: absent or zero (falsy) becomes 20. -/
def searchLimitDefault (limit : Option Int) : Int :=
  match limit with
  | none => 20
  | some l => if l = 0 then 20 else l

/-- `args.market || "US"`: absent or empty string (falsy) becomes "US". -/
def searchMarketDefault (market : Option String) : String :=
  match market with
  | none => "US"
  | some m => if m = "" then "US" else m

/-- `args.offset || 0`: absent or zero becomes 0. -/
def fetchOffsetDefault (offset : Option Int) : Int :=
  match offset with
  | none => 0
  | some o => if o = 0 then 0 else o

/-- `args.limit || 100`: absent or zero (falsy) becomes 100. -/
def fetchLimitDefault (limit : Option Int) : Int :=
  match limit with
  | none => 100
  | some l => if l = 0 then 100 else l

/-- An upstream image object (`{ url }`). -/
structure RawImage where
  url : String
  deriving DecidableEq, Repr

/-- An upstream artist reference (`{ name }`) inside a track or album. -/
structure RawArtistRef where
  name : String
  deriving DecidableEq, Repr

/-- An upstream `external_urls` object (`{ spotify }`). -/
structure RawExternalUrls where
  spotify : String
  deriving DecidableEq, Repr

/-- The album object nested in an upstream track. -/
structure RawAlbumRef where
  name : String
  images : List RawImage
  deriving DecidableEq, Repr

/-- An upstream track object, restricted to the fields the server reads. -/
structure RawTrack where
  id : String
  name : String
  artists : List RawArtistRef
  album : RawAlbumRef
  duration_ms : Int
  explicit : Bool
  uri : String
  external_urls : RawExternalUrls
  deriving DecidableEq, Repr

/-- An upstream album object, restricted to the fields the server reads. -/
structure RawAlbum where
  id : String
  name : String
  artists : List RawArtistRef
  release_date : String
  total_tracks : Int
  uri : String
  external_urls : RawExternalUrls
  images : List RawImage
  deriving DecidableEq, Repr

/-- An upstream followers object (`{ total }`). -/
structure RawFollowers where
  total : Int
  deriving DecidableEq, Repr

/-- An upstream artist object, restricted to the fields the server reads. -/
structure RawArtist where
  id : String
  name : String
  genres : List String
  followers : RawFollowers
  uri : String
  external_urls : RawExternalUrls
  images : List RawImage
  deriving DecidableEq, Repr

/-- An upstream playlist owner (`{ display_name }`). -/
structure RawOwner where
  display_name : String
  deriving DecidableEq, Repr

/-- The `tracks` summary of an upstream playlist (`{ total }`). -/
structure RawTracksRef where
  total : Int
  deriving DecidableEq, Repr

/-- An upstream playlist object, restricted to the fields the server
reads. -/
structure RawPlaylist where
  id : String
  name : String
  owner : RawOwner
  tracks : RawTracksRef
  uri : String
  external_urls : RawExternalUrls
  images : List RawImage
  deriving DecidableEq, Repr

/-- An upstream paging object (`{ items }`). -/
structure Paging (α : Type) where
  items : List α
  deriving DecidableEq, Repr

/-- Body of a `/search` response; each facet is present exactly when the
corresponding type was requested. -/
structure SearchResults where
  tracks : Option (Paging RawTrack)
  albums : Option (Paging RawAlbum)
  artists : Option (Paging RawArtist)
  playlists : Option (Paging RawPlaylist)
  deriving DecidableEq, Repr

/-- One item of a playlist-tracks page (`{ track }`). -/
structure PlaylistItem where
  track : RawTrack
  deriving DecidableEq, Repr

/-- Body of a `/playlists/{id}/tracks` response (`{ items, total }`). -/
structure PlaylistPage where
  items : List PlaylistItem
  total : Int
  deriving DecidableEq, Repr

/-- `track.artists.map((a) => a.name).join(", ")`. -/
def joinArtistNames (artists : List RawArtistRef) : String :=
  String.intercalate ", " (artists.map RawArtistRef.name)

/-- The reduced track projection built by the `search` case. -/
structure TrackProjection where
  id : String
  name : String
  artists : String
  album : String
  duration_ms : Int
  explicit : Bool
  uri : String
  external_url : String
  image : Option String
  deriving DecidableEq, Repr

/-- Projection of one search-result track
(`image` is `track.album.images[0]?.url`). -/
def projectTrack (t : RawTrack) : TrackProjection :=
  ⟨t.id, t.name, joinArtistNames t.artists, t.album.name, t.duration_ms,
   t.explicit, t.uri, t.external_urls.spotify,
   (t.album.images.head?).map RawImage.url⟩

/-- The reduced album projection built by the `search` case. -/
structure AlbumProjection where
  id : String
  name : String
  artists : String
  release_date : String
  total_tracks : Int
  uri : String
  external_url : String
  image : Option String
  deriving DecidableEq, Repr

/-- Projection of one search-result album. -/
def projectAlbum (a : RawAlbum) : AlbumProjection :=
  ⟨a.id, a.name, joinArtistNames a.artists, a.release_date, a.total_tracks,
   a.uri, a.external_urls.spotify, (a.images.head?).map RawImage.url⟩

/-- The reduced artist projection built by the `search` case. -/
structure ArtistProjection where
  id : String
  name : String
  genres : List String
  followers : Int
  uri : String
  external_url : String
  image : Option String
  deriving DecidableEq, Repr

/-- Projection of one search-result artist. -/
def projectArtist (a : RawArtist) : ArtistProjection :=
  ⟨a.id, a.name, a.genres, a.followers.total, a.uri, a.external_urls.spotify,
   (a.images.head?).map RawImage.url⟩

/-- The reduced playlist projection built by the `search` case. -/
structure PlaylistProjection where
  id : String
  name : String
  owner : String
  tracks_total : Int
  uri : String
  external_url : String
  image : Option String
  deriving DecidableEq, Repr

/-- Projection of one search-result playlist. -/
def projectPlaylist (p : RawPlaylist) : PlaylistProjection :=
  ⟨p.id, p.name, p.owner.display_name, p.tracks.total, p.uri,
   p.external_urls.spotify, (p.images.head?).map RawImage.url⟩

/-- The `results` object assembled by the `search` case; a facet is
present exactly when the upstream response carried it. -/
structure SearchOutput where
  tracks : Option (List TrackProjection)
  albums : Option (List AlbumProjection)
  artists : Option (List ArtistProjection)
  playlists : Option (List PlaylistProjection)
  deriving DecidableEq, Repr

/-- The four `if (searchResults.X)` projection blocks of the `search`
case. -/
def projectSearchResults (r : SearchResults) : SearchOutput :=
  ⟨r.tracks.map (fun p => p.items.map projectTrack),
   r.albums.map (fun p => p.items.map projectAlbum),
   r.artists.map (fun p => p.items.map projectArtist),
   r.playlists.map (fun p => p.items.map projectPlaylist)⟩

/-- `Object.values(results).flat().length`. -/
def searchOutputCount (o : SearchOutput) : Nat :=
  (o.tracks.getD []).length + (o.albums.getD []).length +
    (o.artists.getD []).length + (o.playlists.getD []).length

/-- The per-track projection built by `fetch_tracks`; `is_saved` is
`savedStatus[index]`, hence `none` when the saved-status array is shorter
than the items array (JavaScript `undefined`). -/
structure ProjectedPlaylistTrack where
  id : String
  name : String
  artists : String
  album : String
  duration_ms : Int
  explicit : Bool
  is_saved : Option Bool
  uri : String
  external_url : String
  deriving DecidableEq, Repr

/-- `data.items.map((item, index) => ({... is_saved: savedStatus[index] ...}))`. -/
def projectPlaylistItems (items : List PlaylistItem) (savedStatus : List Bool) :
    List ProjectedPlaylistTrack :=
  items.enum.map (fun iv =>
    ⟨iv.2.track.id, iv.2.track.name, joinArtistNames iv.2.track.artists,
     iv.2.track.album.name, iv.2.track.duration_ms, iv.2.track.explicit,
     savedStatus.get? iv.1, iv.2.track.uri, iv.2.track.external_urls.spotify⟩)

/-- A JSON body returned by the API oracle, tagged by shape. -/
inductive ApiResponse
  | nullBody
  | page (p : PlaylistPage)
  | saved (flags : List Bool)
  | results (r : SearchResults)
  deriving DecidableEq, Repr

/-- Outcome of `api.spotify.com` for a given request; `Except.error`
models a non-2xx status. -/
abbrev ApiOracle := ApiRequest → Except String ApiResponse

/-- Environment of a request: OAuth configuration, the three HTTP oracles
and the current time. -/
structure Env where
  clientId : String
  redirectUri : String
  refresh : RefreshOracle
  api : ApiOracle
  exchange : ExchangeOracle
  now : Int

/-- Mutable server state: the two global maps plus instrumentation
counters (the API request log, refresh-call count, code-exchange count). -/
structure ServerState where
  authSessions : Store Session
  pendingAuthStates : Store PendingAuth
  apiRequests : List ApiRequest
  refreshCalls : Nat
  exchangeCalls : Nat
  deriving DecidableEq, Repr

/--
`spotifyApiRequest(sessionId, endpoint, method, body)`
(`src/server/server.ts:417`): obtains a valid token (refreshing lazily),
then issues the request.  The issued request is appended to the log; its
outcome comes from the API oracle.
-/
def spotifyApiRequest (env : Env) (st : ServerState) (sessionId : String)
    (endpoint : String) (method : String) (body : Option (List String)) :
    ServerState × Except String ApiResponse :=
  match getValidAccessToken env.refresh env.now st.authSessions sessionId with
  | .error e => (st, .error e)
  | .ok (_accessToken, sessions', refreshCount) =>
    let req : ApiRequest := ⟨endpoint, method, body⟩
    ({ st with
        authSessions := sessions'
        refreshCalls := st.refreshCalls + refreshCount
        apiRequests := st.apiRequests ++ [req] },
     env.api req)

/-- The endpoint selected by the `itemType` switch of both library tools;
`none` models the `default: throw` branch (reached for `playlist`). -/
def libraryEndpoint : ItemType → Option String
  | .track => some "/me/tracks"
  | .album => some "/me/albums"
  | .artist => some "/me/following?type=artist"
  | .show => some "/me/shows"
  | .episode => some "/me/episodes"
  | .playlist => none

/-- The playlist-page endpoint string built by `fetch_tracks`. -/
def fetchTracksEndpoint (playlistId : String) (offset limit : Int) : String :=
  "/playlists/" ++ playlistId ++ "/tracks?offset=" ++ toString offset ++
    "&limit=" ++ toString limit

/-- The saved-status batch endpoint string built by `fetch_tracks`
(`/me/tracks/contains?ids=` followed by the comma-joined track ids). -/
def containsTracksEndpoint (trackIds : List String) : String :=
  "/me/tracks/contains?ids=" ++ String.intercalate "," trackIds

/-- The search endpoint string built by the `search` case; the query is
`encodeURIComponent`-encoded, the other parameters are interpolated
verbatim. -/
def searchEndpoint (query : String) (types : List ItemType) (limit : Int)
    (market : String) : String :=
  "/search?q=" ++ encodeURIComponent query ++ "&type=" ++
    String.intercalate "," (types.map ItemType.str) ++ "&limit=" ++
    toString limit ++ "&market=" ++ market

/-- JavaScript `String.prototype.includes`, on character lists: the needle
occurs as a contiguous sublist of the haystack. -/
def includesSub (needle : List Char) : List Char → Bool
  | [] => needle.isEmpty
  | c :: rest => List.isPrefixOf needle (c :: rest) || includesSub needle rest

/-- `args.query.toLowerCase().includes("audiobook")`; lowercasing is done
characterwise on the character list. -/
def queryMentionsAudiobook (query : String) : Bool :=
  includesSub "audiobook".toList (query.toList.map Char.toLower)

/-- The fixed audiobook refusal text (`\x27` is the apostrophe). -/
def audiobookRefusalText : String :=
  "You can\x27t search audiobooks on Spotify yet. Try the Spotify app, or search for something else."

/-- Content of the structured part of a tool result. -/
inductive StructuredContent
  | fetchTracksContent (playlistId : String)
      (tracks : List ProjectedPlaylistTrack) (total : Int)
  | searchContent (query : String) (results : SearchOutput)
  deriving DecidableEq, Repr

/-- A successful tool result: text content blocks plus optional structured
content (widget `_meta`, being constant metadata, is not modelled). -/
structure ToolOutput where
  content : List String
  structuredContent : Option StructuredContent
  deriving DecidableEq, Repr

/--
The `CallToolRequestSchema` handler (`src/server/server.ts:503`): the
authentication gate followed by the switch over the four tools.
`randomState` stands for the `crypto.randomBytes(16).toString("hex")`
value drawn in the gate; a thrown error (zod failure, unsupported item
type, upstream failure, unknown tool) is `Except.error`.
-/
def callToolHandler (env : Env) (st : ServerState) (sessionId : String)
    (toolName : String) (args : RawArgs) (randomState : String) :
    ServerState × Except String ToolOutput :=
  if (Store.find? st.authSessions sessionId).isNone then
    let authUrl := generateAuthUrl env.clientId env.redirectUri randomState
    ({ st with
        pendingAuthStates :=
          Store.insert st.pendingAuthStates randomState ⟨sessionId, env.now⟩ },
     .ok ⟨["Please authenticate with Spotify to use this feature. Visit: " ++
            authUrl], none⟩)
  else if toolName = "add_to_library" then
    match addToLibraryParser args with
    | .error e => (st, .error e)
    | .ok libArgs =>
      match libraryEndpoint libArgs.itemType with
      | none => (st, .error ("Unsupported item type: " ++ libArgs.itemType.str))
      | some endpoint =>
        match spotifyApiRequest env st sessionId endpoint "PUT"
            (some [libArgs.itemId]) with
        | (st1, .error e) => (st1, .error e)
        | (st1, .ok _) =>
          (st1, .ok ⟨["Successfully added " ++ libArgs.itemType.str ++
                       " to your library."], none⟩)
  else if toolName = "remove_from_library" then
    match removeFromLibraryParser args with
    | .error e => (st, .error e)
    | .ok libArgs =>
      match libraryEndpoint libArgs.itemType with
      | none => (st, .error ("Unsupported item type: " ++ libArgs.itemType.str))
      | some endpoint =>
        match spotifyApiRequest env st sessionId endpoint "DELETE"
            (some [libArgs.itemId]) with
        | (st1, .error e) => (st1, .error e)
        | (st1, .ok _) =>
          (st1, .ok ⟨["Successfully removed " ++ libArgs.itemType.str ++
                       " from your library."], none⟩)
  else if toolName = "fetch_tracks" then
    match fetchTracksParser args with
    | .error e => (st, .error e)
    | .ok fargs =>
      match spotifyApiRequest env st sessionId
          (fetchTracksEndpoint fargs.playlistId (fetchOffsetDefault fargs.offset)
            (fetchLimitDefault fargs.limit)) "GET" none with
      | (st1, .error e) => (st1, .error e)
      | (st1, .ok (ApiResponse.page data)) =>
        match spotifyApiRequest env st1 sessionId
            (containsTracksEndpoint
              (data.items.map (fun item => item.track.id))) "GET" none with
        | (st2, .error e) => (st2, .error e)
        | (st2, .ok (ApiResponse.saved savedStatus)) =>
          let tracks := projectPlaylistItems data.items savedStatus
          (st2, .ok ⟨["Loaded " ++ toString tracks.length ++
                       " tracks from playlist."],
                     some (.fetchTracksContent fargs.playlistId tracks
                             data.total)⟩)
        | (st2, .ok _) => (st2, .error "TypeError: unexpected response shape")
      | (st1, .ok _) => (st1, .error "TypeError: unexpected response shape")
  else if toolName = "search" then
    match searchParser args with
    | .error e => (st, .error e)
    | .ok sargs =>
      if queryMentionsAudiobook sargs.query then
        (st, .ok ⟨[audiobookRefusalText], none⟩)
      else
        match spotifyApiRequest env st sessionId
            (searchEndpoint sargs.query (searchTypesDefault sargs.types)
              (searchLimitDefault sargs.limit)
              (searchMarketDefault sargs.market)) "GET" none with
        | (st1, .error e) => (st1, .error e)
        | (st1, .ok (ApiResponse.results searchResults)) =>
          let results := projectSearchResults searchResults
          (st1, .ok ⟨["Found " ++ toString (searchOutputCount results) ++
                       " results for \"" ++ sargs.query ++ "\"."],
                     some (.searchContent sargs.query results)⟩)
        | (st1, .ok _) => (st1, .error "TypeError: unexpected response shape")
  else
    (st, .error ("Unknown tool: " ++ toolName))

/-- Result page of the OAuth callback route. -/
inductive CallbackResult
  | authFailedPage (error : String)
  | missingParam
  | invalidState
  | successPage
  | exchangeErrorPage (message : String)
  deriving DecidableEq, Repr

/-- The clean-up loop of `handleAuthCallback`: deletes every pending
authorization strictly older than ten minutes. -/
def sweepPendingAuthStates (now : Int) (pending : Store PendingAuth) :
    Store PendingAuth :=
  List.filter (fun kv => ! decide (now - kv.2.createdAt > 10 * 60 * 1000)) pending

/--
`handleAuthCallback(req, res, url)` (`src/server/server.ts:816`).  Query
parameters are `Option String`, `none` when absent; `url.searchParams.get`
also makes the empty string falsy, so an empty `code` or `state` behaves
as missing.  On a matched state the handler sweeps stale pending
authorizations, exchanges the code, stores the session under the
originating session id, and deletes the consumed state.
-/
def handleAuthCallback (env : Env) (st : ServerState)
    (code state error : Option String) : ServerState × CallbackResult :=
  match error with
  | some e => (st, .authFailedPage e)
  | none =>
    if code.getD "" = "" ∨ state.getD "" = "" then
      (st, .missingParam)
    else
      match Store.find? st.pendingAuthStates (state.getD "") with
      | none => (st, .invalidState)
      | some pendingAuth =>
        let pending' := sweepPendingAuthStates env.now st.pendingAuthStates
        match env.exchange (code.getD "") with
        | .error msg =>
          ({ st with
              pendingAuthStates := pending'
              exchangeCalls := st.exchangeCalls + 1 },
           .exchangeErrorPage msg)
        | .ok tokenData =>
          ({ st with
              authSessions :=
                Store.insert st.authSessions pendingAuth.sessionId
                  ⟨tokenData.access_token, tokenData.refresh_token,
                   env.now + tokenData.expires_in * 1000⟩
              pendingAuthStates := Store.erase pending' (state.getD "")
              exchangeCalls := st.exchangeCalls + 1 },
           .successPage)

/-! Concrete instances used by the witnesses. -/

/-- A session whose token is valid until `t = 1000000`. -/
def demoSession : Session := ⟨"tok", "refreshTok", 1000000⟩

/-- A server state holding exactly the session `"s1"`. -/
def demoState : ServerState := ⟨[("s1", demoSession)], [], [], 0, 0⟩

/-- A two-track playlist page. -/
def demoPage : PlaylistPage :=
  ⟨[⟨⟨"t1", "Song One", [⟨"Artist A"⟩], ⟨"Album A", [⟨"imgA"⟩]⟩, 201000,
      false, "spotify:track:t1", ⟨"https://open.spotify.com/track/t1"⟩⟩⟩,
    ⟨⟨"t2", "Song Two", [⟨"Artist B"⟩, ⟨"Artist C"⟩], ⟨"Album B", []⟩, 95000,
      true, "spotify:track:t2", ⟨"https://open.spotify.com/track/t2"⟩⟩⟩],
   2⟩

/-- An API oracle serving the demo playlist page and its saved-status
batch, and failing on anything else. -/
def demoApi : ApiOracle := fun req =>
  if req.endpoint = fetchTracksEndpoint "pl1" 0 100 then
    .ok (.page demoPage)
  else if req.endpoint = containsTracksEndpoint ["t1", "t2"] then
    .ok (.saved [true, false])
  else
    .error "404 not found"

/-- An environment wired to the demo oracles at time 0. -/
def demoEnv : Env :=
  ⟨"cid", "http://0.0.0.0:8000/auth/callback",
   fun _ => .ok ⟨"newTok", 3600⟩, demoApi,
   fun _ => .ok ⟨"accTok", "refTok", 3600⟩, 0⟩

/-! Store lemmas. -/

theorem Store.find?_mem {α : Type} {s : Store α} {k : String} {v : α}
    (h : Store.find? s k = some v) : (k, v) ∈ s := by
  induction s with
  | nil => simp [Store.find?] at h
  | cons hd rest ih =>
    by_cases hk : hd.1 = k
    · rw [Store.find?, if_pos hk] at h
      injection h with h2
      have hhd : hd = (k, v) := by cases hd; simp_all
      rw [hhd]
      exact List.mem_cons_self _ _
    · rw [Store.find?, if_neg hk] at h
      exact List.mem_cons_of_mem _ (ih h)

theorem Store.mem_erase {α : Type} {s : Store α} {k : String} {kv : String × α}
    (h : kv ∈ Store.erase s k) : kv ∈ s := by
  induction s with
  | nil => simp [Store.erase] at h
  | cons hd rest ih =>
    by_cases hk : hd.1 = k
    · rw [Store.erase, if_pos hk] at h
      exact List.mem_cons_of_mem _ h
    · rw [Store.erase, if_neg hk] at h
      rcases List.mem_cons.mp h with h1 | h1
      · exact h1 ▸ List.mem_cons_self _ _
      · exact List.mem_cons_of_mem _ (ih h1)

/-- Every entry surviving the sweep is at most ten minutes old. -/
theorem sweepPendingAuthStates_fresh {now : Int} {pending : Store PendingAuth}
    {kv : String × PendingAuth} (h : kv ∈ sweepPendingAuthStates now pending) :
    now - kv.2.createdAt ≤ 10 * 60 * 1000 := by
  rw [sweepPendingAuthStates] at h
  have := (List.mem_filter.mp h).2
  simp only [Bool.not_eq_true', decide_eq_false_iff_not, not_lt] at this
  exact this

/-! Claim theorems. -/

/-- **C1.**  For every session stored in the token store,
`getValidAccessToken` returns the stored access token unchanged with zero
refresh calls and an unchanged store when `now` is strictly before the
stored expiry; and when `now` is at or past the expiry it performs exactly
one refresh call, overwrites the stored access token with the refreshed
one and sets the expiry to `now + expires_in * 1000` milliseconds. -/
theorem C1_getValidAccessToken_lazy_refresh
    (refresh : RefreshOracle) (now : Int) (sessions : Store Session)
    (sessionId : String) (session : Session)
    (hfind : Store.find? sessions sessionId = some session) :
    (now < session.expiresAt →
      getValidAccessToken refresh now sessions sessionId =
        .ok (session.accessToken, sessions, 0)) ∧
    (∀ tokenData : RefreshResponse,
      session.expiresAt ≤ now →
      refresh session.refreshToken = .ok tokenData →
      getValidAccessToken refresh now sessions sessionId =
        .ok (tokenData.access_token,
             Store.insert sessions sessionId
               { session with
                 accessToken := tokenData.access_token
                 expiresAt := now + tokenData.expires_in * 1000 },
             1)) := by
  constructor
  · intro hlt
    simp [getValidAccessToken, hfind, not_le.mpr hlt]
  · intro tokenData hle hok
    simp [getValidAccessToken, hfind, hle, hok]

/-- Witness for C1 at a concrete store: a fresh token at `now = 500` is
returned unchanged; an expired one at `now = 2000` is refreshed once. -/
theorem C1_getValidAccessToken_lazy_refresh_witness :
    (getValidAccessToken (fun _ => .ok ⟨"newTok", 3600⟩) 500
        [("s1", ⟨"oldTok", "r1", 1000⟩)] "s1" =
      .ok ("oldTok", [("s1", ⟨"oldTok", "r1", 1000⟩)], 0)) ∧
    (getValidAccessToken (fun _ => .ok ⟨"newTok", 3600⟩) 2000
        [("s1", ⟨"oldTok", "r1", 1000⟩)] "s1" =
      .ok ("newTok", [("s1", ⟨"newTok", "r1", 2000 + 3600 * 1000⟩)], 1)) := by
  constructor
  · exact (C1_getValidAccessToken_lazy_refresh (fun _ => .ok ⟨"newTok", 3600⟩)
      500 [("s1", ⟨"oldTok", "r1", 1000⟩)] "s1" ⟨"oldTok", "r1", 1000⟩
      (by rfl)).1 (by decide)
  · exact (C1_getValidAccessToken_lazy_refresh (fun _ => .ok ⟨"newTok", 3600⟩)
      2000 [("s1", ⟨"oldTok", "r1", 1000⟩)] "s1" ⟨"oldTok", "r1", 1000⟩
      (by rfl)).2 ⟨"newTok", 3600⟩ (by decide) (by rfl)

/-- **C2.**  For every incoming tool call — whatever the tool name and
arguments — when no session exists for the caller's session identifier,
the handler records a pending authorization mapping the freshly drawn
state token to the session id and the current time, and returns a text
message carrying the constructed Spotify authorization URL; the session
store, the API request log and all call counters are untouched, so no
tool executes and no upstream call is made. -/
theorem C2_auth_gate (env : Env) (st : ServerState) (sessionId : String)
    (toolName : String) (args : RawArgs) (randomState : String)
    (hnoSession : Store.find? st.authSessions sessionId = none) :
    callToolHandler env st sessionId toolName args randomState =
      ({ st with
          pendingAuthStates :=
            Store.insert st.pendingAuthStates randomState ⟨sessionId, env.now⟩ },
       .ok ⟨["Please authenticate with Spotify to use this feature. Visit: " ++
              generateAuthUrl env.clientId env.redirectUri randomState],
            none⟩) := by
  simp [callToolHandler, hnoSession]

/-- Witness for C2: an unknown session id asking for `search` (and for an
unknown tool name) receives the authorization prompt. -/
theorem C2_auth_gate_witness :
    callToolHandler demoEnv demoState "nobody" "search" RawArgs.empty "state1" =
      ({ demoState with
          pendingAuthStates :=
            Store.insert demoState.pendingAuthStates "state1" ⟨"nobody", demoEnv.now⟩ },
       .ok ⟨["Please authenticate with Spotify to use this feature. Visit: " ++
              generateAuthUrl demoEnv.clientId demoEnv.redirectUri "state1"],
            none⟩) :=
  C2_auth_gate demoEnv demoState "nobody" "search" RawArgs.empty "state1" (by rfl)

/-- **C3, counterexample.**  The claim quantifies over every search call
with an audiobook query "regardless of the other arguments", but a
`limit` of 51 fails zod validation (`z.number().max(50)`) before the
audiobook check runs, so the fixed refusal text is not returned. -/
theorem C3_counterexample :
    queryMentionsAudiobook "find me an audiobook" = true ∧
    (callToolHandler demoEnv demoState "s1" "search"
        ⟨none, none, none, none, some 51, some "find me an audiobook", none,
         none⟩ "st1").2 = .error "limit must be at most 50" ∧
    (Except.error "limit must be at most 50" : Except String ToolOutput) ≠
      .ok ⟨[audiobookRefusalText], none⟩ := by
  refine ⟨by decide, by rfl, ?_⟩
  intro h
  exact Except.noConfusion h

/-- **C3, amended.**  For every search call from an authenticated session
whose arguments pass zod validation and whose query, lowercased, contains
the substring "audiobook", the tool returns the fixed refusal text —
whatever the validated `types`, `limit` and `market` are — and the state
is returned unchanged: zero upstream API calls are issued. -/
theorem C3_audiobook_refusal (env : Env) (st : ServerState)
    (sessionId : String) (args : RawArgs) (sargs : SearchArgs)
    (randomState : String) (sess : Session)
    (hauth : Store.find? st.authSessions sessionId = some sess)
    (hparse : searchParser args = .ok sargs)
    (hq : queryMentionsAudiobook sargs.query = true) :
    callToolHandler env st sessionId "search" args randomState =
      (st, .ok ⟨[audiobookRefusalText], none⟩) := by
  simp [callToolHandler, hauth, hparse, hq]

/-- Witness for C3 (amended): an authenticated "Audiobook please" search
with concrete types, limit and market gets the refusal and leaves the
state unchanged. -/
theorem C3_audiobook_refusal_witness :
    callToolHandler demoEnv demoState "s1" "search"
        ⟨none, none, none, none, some 10, some "Audiobook please",
         some ["show"], some "DE"⟩ "st1" =
      (demoState, .ok ⟨[audiobookRefusalText], none⟩) :=
  C3_audiobook_refusal demoEnv demoState "s1"
    ⟨none, none, none, none, some 10, some "Audiobook please", some ["show"],
     some "DE"⟩
    ⟨"Audiobook please", some [.show], some 10, some "DE"⟩ "st1" demoSession
    (by rfl) (by rfl) (by decide)

/-- **C10.**  The zod enum of both library tools accepts
`itemType = "playlist"`, yet the endpoint dispatch handles only track,
album, artist, show and episode, so for every authenticated session an
`add_to_library` or `remove_from_library` call with item type "playlist"
throws the "Unsupported item type" error with the state unchanged — in
particular zero upstream API calls are issued. -/
theorem C10_playlist_unsupported (env : Env) (st : ServerState)
    (sessionId : String) (args : RawArgs) (randomState : String)
    (sess : Session) (itemId : String)
    (hauth : Store.find? st.authSessions sessionId = some sess)
    (htype : args.itemType = some "playlist")
    (hid : args.itemId = some itemId) :
    addToLibraryParser args = .ok ⟨.playlist, itemId⟩ ∧
    removeFromLibraryParser args = .ok ⟨.playlist, itemId⟩ ∧
    callToolHandler env st sessionId "add_to_library" args randomState =
      (st, .error "Unsupported item type: playlist") ∧
    callToolHandler env st sessionId "remove_from_library" args randomState =
      (st, .error "Unsupported item type: playlist") := by
  refine ⟨?_, ?_, ?_, ?_⟩
  · simp [addToLibraryParser, htype, hid, parseItemType]
  · simp [removeFromLibraryParser, htype, hid, parseItemType]
  · simp [callToolHandler, hauth, addToLibraryParser, htype, hid,
      parseItemType, libraryEndpoint, ItemType.str]
  · simp [callToolHandler, hauth, removeFromLibraryParser, htype, hid,
      parseItemType, libraryEndpoint, ItemType.str]

/-- Witness for C10 at a concrete state and item id. -/
theorem C10_playlist_unsupported_witness :
    addToLibraryParser
        ⟨some "playlist", some "pl9", none, none, none, none, none, none⟩ =
      .ok ⟨.playlist, "pl9"⟩ ∧
    removeFromLibraryParser
        ⟨some "playlist", some "pl9", none, none, none, none, none, none⟩ =
      .ok ⟨.playlist, "pl9"⟩ ∧
    callToolHandler demoEnv demoState "s1" "add_to_library"
        ⟨some "playlist", some "pl9", none, none, none, none, none, none⟩
        "st1" =
      (demoState, .error "Unsupported item type: playlist") ∧
    callToolHandler demoEnv demoState "s1" "remove_from_library"
        ⟨some "playlist", some "pl9", none, none, none, none, none, none⟩
        "st1" =
      (demoState, .error "Unsupported item type: playlist") :=
  C10_playlist_unsupported demoEnv demoState "s1"
    ⟨some "playlist", some "pl9", none, none, none, none, none, none⟩ "st1"
    demoSession "pl9" (by rfl) (by rfl) (by rfl)

/-- **C8.**  For every authenticated session (with a non-expired token),
`add_to_library` with item type "artist" issues exactly one upstream
request — a PUT to `/me/following?type=artist` with body
`ids = [itemId]` — and `remove_from_library` with the same arguments
issues exactly one DELETE to that same endpoint with the same body,
whatever the API oracle answers. -/
theorem C8_artist_follow_endpoints (env : Env) (st : ServerState)
    (sessionId : String) (args : RawArgs) (randomState : String)
    (sess : Session) (itemId : String)
    (hauth : Store.find? st.authSessions sessionId = some sess)
    (hfresh : env.now < sess.expiresAt)
    (htype : args.itemType = some "artist")
    (hid : args.itemId = some itemId) :
    (callToolHandler env st sessionId "add_to_library" args
        randomState).1.apiRequests =
      st.apiRequests ++ [⟨"/me/following?type=artist", "PUT", some [itemId]⟩] ∧
    (callToolHandler env st sessionId "remove_from_library" args
        randomState).1.apiRequests =
      st.apiRequests ++ [⟨"/me/following?type=artist", "DELETE", some [itemId]⟩] := by
  have hget : getValidAccessToken env.refresh env.now st.authSessions sessionId =
      .ok (sess.accessToken, st.authSessions, 0) := by
    simp [getValidAccessToken, hauth, not_le.mpr hfresh]
  constructor
  · cases hapi : env.api ⟨"/me/following?type=artist", "PUT", some [itemId]⟩ with
    | error e =>
      simp [callToolHandler, hauth, addToLibraryParser, htype, hid,
        parseItemType, libraryEndpoint, spotifyApiRequest, hget, hapi]
    | ok r =>
      simp [callToolHandler, hauth, addToLibraryParser, htype, hid,
        parseItemType, libraryEndpoint, spotifyApiRequest, hget, hapi]
  · cases hapi : env.api ⟨"/me/following?type=artist", "DELETE", some [itemId]⟩ with
    | error e =>
      simp [callToolHandler, hauth, removeFromLibraryParser, htype, hid,
        parseItemType, libraryEndpoint, spotifyApiRequest, hget, hapi]
    | ok r =>
      simp [callToolHandler, hauth, removeFromLibraryParser, htype, hid,
        parseItemType, libraryEndpoint, spotifyApiRequest, hget, hapi]

/-- Witness for C8: following and unfollowing artist "ar1" from the demo
state logs exactly the PUT and the DELETE to the follow endpoint. -/
theorem C8_artist_follow_endpoints_witness :
    (callToolHandler demoEnv demoState "s1" "add_to_library"
        ⟨some "artist", some "ar1", none, none, none, none, none, none⟩
        "st1").1.apiRequests =
      demoState.apiRequests ++
        [⟨"/me/following?type=artist", "PUT", some ["ar1"]⟩] ∧
    (callToolHandler demoEnv demoState "s1" "remove_from_library"
        ⟨some "artist", some "ar1", none, none, none, none, none, none⟩
        "st1").1.apiRequests =
      demoState.apiRequests ++
        [⟨"/me/following?type=artist", "DELETE", some ["ar1"]⟩] :=
  C8_artist_follow_endpoints demoEnv demoState "s1"
    ⟨some "artist", some "ar1", none, none, none, none, none, none⟩ "st1"
    demoSession "ar1" (by rfl) (by decide) (by rfl) (by rfl)

/-- Helper: a validated, non-audiobook search call leaves the state
unchanged except for appending exactly the one search request built from
the (defaulted) arguments. -/
theorem search_request_state (env : Env) (st : ServerState)
    (sessionId : String) (args : RawArgs) (sargs : SearchArgs)
    (randomState : String) (sess : Session)
    (hauth : Store.find? st.authSessions sessionId = some sess)
    (hfresh : env.now < sess.expiresAt)
    (hparse : searchParser args = .ok sargs)
    (hq : queryMentionsAudiobook sargs.query = false) :
    (callToolHandler env st sessionId "search" args randomState).1 =
      { st with
          apiRequests := st.apiRequests ++
            [⟨searchEndpoint sargs.query (searchTypesDefault sargs.types)
                (searchLimitDefault sargs.limit)
                (searchMarketDefault sargs.market), "GET", none⟩] } := by
  have hget : getValidAccessToken env.refresh env.now st.authSessions sessionId =
      .ok (sess.accessToken, st.authSessions, 0) := by
    simp [getValidAccessToken, hauth, not_le.mpr hfresh]
  cases hapi : env.api
      ⟨searchEndpoint sargs.query (searchTypesDefault sargs.types)
        (searchLimitDefault sargs.limit) (searchMarketDefault sargs.market),
       "GET", none⟩ with
  | error e =>
    simp [callToolHandler, hauth, hparse, hq, spotifyApiRequest, hget, hapi]
  | ok r =>
    cases r <;>
      simp [callToolHandler, hauth, hparse, hq, spotifyApiRequest, hget, hapi]

/-- Helper: the zod bound `z.number().max(50)` guarantees the defaulted
search limit never exceeds 50. -/
theorem searchParser_limitDefault_le {args : RawArgs} {sargs : SearchArgs}
    (hparse : searchParser args = .ok sargs) :
    searchLimitDefault sargs.limit ≤ 50 := by
  rcases args with ⟨it, iid, pid, off, lim, q, tys, mkt⟩
  cases q with
  | none => simp [searchParser] at hparse
  | some q =>
    cases tys with
    | none =>
      cases lim with
      | none =>
        simp [searchParser] at hparse
        rw [← hparse]
        simp [searchLimitDefault]
      | some l =>
        by_cases hl : l ≤ 50
        · simp [searchParser, hl] at hparse
          rw [← hparse]
          simp only [searchLimitDefault]
          split
          · norm_num
          · exact hl
        · simp [searchParser, hl] at hparse
    | some ss =>
      cases hts : parseItemTypes ss with
      | none => simp [searchParser, hts] at hparse
      | some ts =>
        cases lim with
        | none =>
          simp [searchParser, hts] at hparse
          rw [← hparse]
          simp [searchLimitDefault]
        | some l =>
          by_cases hl : l ≤ 50
          · simp [searchParser, hts, hl] at hparse
            rw [← hparse]
            simp only [searchLimitDefault]
            split
            · norm_num
            · exact hl
          · simp [searchParser, hts, hl] at hparse

/-- **C5.**  Every validated, non-audiobook search call from an
authenticated session issues exactly one upstream search request built
from the defaulted arguments, where the defaults are: types
`track,album,artist,playlist` when absent, limit 20 when absent, market
"US" when absent; and the limit baked into the request never exceeds 50
(the zod bound). -/
theorem C5_search_defaults (env : Env) (st : ServerState)
    (sessionId : String) (args : RawArgs) (sargs : SearchArgs)
    (randomState : String) (sess : Session)
    (hauth : Store.find? st.authSessions sessionId = some sess)
    (hfresh : env.now < sess.expiresAt)
    (hparse : searchParser args = .ok sargs)
    (hq : queryMentionsAudiobook sargs.query = false) :
    (callToolHandler env st sessionId "search" args randomState).1.apiRequests =
      st.apiRequests ++
        [⟨searchEndpoint sargs.query (searchTypesDefault sargs.types)
            (searchLimitDefault sargs.limit) (searchMarketDefault sargs.market),
          "GET", none⟩] ∧
    searchTypesDefault none = [.track, .album, .artist, .playlist] ∧
    searchLimitDefault none = 20 ∧
    searchMarketDefault none = "US" ∧
    searchLimitDefault sargs.limit ≤ 50 := by
  refine ⟨?_, by rfl, by rfl, by rfl, searchParser_limitDefault_le hparse⟩
  rw [search_request_state env st sessionId args sargs randomState sess hauth
    hfresh hparse hq]

/-- Witness for C5: a bare `search("hello")` issues the request with all
three defaults filled in. -/
theorem C5_search_defaults_witness :
    (callToolHandler demoEnv demoState "s1" "search"
        ⟨none, none, none, none, none, some "hello", none, none⟩
        "st1").1.apiRequests =
      demoState.apiRequests ++
        [⟨searchEndpoint "hello" (searchTypesDefault none)
            (searchLimitDefault none) (searchMarketDefault none), "GET",
          none⟩] ∧
    searchLimitDefault none = 20 :=
  ⟨(C5_search_defaults demoEnv demoState "s1"
      ⟨none, none, none, none, none, some "hello", none, none⟩
      ⟨"hello", none, none, none⟩ "st1" demoSession (by rfl) (by decide)
      (by rfl) (by decide)).1,
   (C5_search_defaults demoEnv demoState "s1"
      ⟨none, none, none, none, none, some "hello", none, none⟩
      ⟨"hello", none, none, none⟩ "st1" demoSession (by rfl) (by decide)
      (by rfl) (by decide)).2.2.1⟩

/-- **C9.**  A `limit` of 0 is falsy in JavaScript, so a validated search
call with `limit = 0` issues its upstream request with limit 20, a
validated `fetch_tracks` call with `limit = 0` issues its page request
with limit 100, and neither tool can ever send a request with limit 0. -/
theorem C9_zero_limit_substituted (env : Env) (st : ServerState)
    (sessionId : String) (argsS argsF : RawArgs) (sargs : SearchArgs)
    (fargs : FetchTracksArgs) (randomState : String) (sess : Session)
    (hauth : Store.find? st.authSessions sessionId = some sess)
    (hfresh : env.now < sess.expiresAt)
    (hlog : st.apiRequests = [])
    (hparseS : searchParser argsS = .ok sargs)
    (hlimS : sargs.limit = some 0)
    (hq : queryMentionsAudiobook sargs.query = false)
    (hparseF : fetchTracksParser argsF = .ok fargs)
    (hlimF : fargs.limit = some 0) :
    (callToolHandler env st sessionId "search" argsS randomState).1.apiRequests =
      [⟨searchEndpoint sargs.query (searchTypesDefault sargs.types) 20
          (searchMarketDefault sargs.market), "GET", none⟩] ∧
    (callToolHandler env st sessionId "fetch_tracks" argsF
        randomState).1.apiRequests.head? =
      some ⟨fetchTracksEndpoint fargs.playlistId (fetchOffsetDefault fargs.offset)
              100, "GET", none⟩ ∧
    (∀ l : Option Int, searchLimitDefault l ≠ 0 ∧ fetchLimitDefault l ≠ 0) := by
  have hget : getValidAccessToken env.refresh env.now st.authSessions sessionId =
      .ok (sess.accessToken, st.authSessions, 0) := by
    simp [getValidAccessToken, hauth, not_le.mpr hfresh]
  refine ⟨?_, ?_, ?_⟩
  · rw [search_request_state env st sessionId argsS sargs randomState sess hauth
      hfresh hparseS hq, hlog]
    simp [hlimS, searchLimitDefault]
  · have hlim100 : fetchLimitDefault fargs.limit = 100 := by
      rw [hlimF]
      simp [fetchLimitDefault]
    cases hapi : env.api
        ⟨fetchTracksEndpoint fargs.playlistId (fetchOffsetDefault fargs.offset)
          (fetchLimitDefault fargs.limit), "GET", none⟩ with
    | error e =>
      simp [callToolHandler, hauth, hparseF, spotifyApiRequest, hget, hapi,
        hlog, ← hlim100]
    | ok r =>
      cases r with
      | page data =>
        cases hapi2 : env.api
            ⟨containsTracksEndpoint (data.items.map (fun item => item.track.id)),
             "GET", none⟩ with
        | error e =>
          simp [callToolHandler, hauth, hparseF, spotifyApiRequest, hget, hapi,
            hapi2, hlog, ← hlim100]
        | ok r2 =>
          cases r2 <;>
            simp [callToolHandler, hauth, hparseF, spotifyApiRequest, hget,
              hapi, hapi2, hlog, ← hlim100]
      | nullBody =>
        simp [callToolHandler, hauth, hparseF, spotifyApiRequest, hget, hapi,
          hlog, ← hlim100]
      | saved flags =>
        simp [callToolHandler, hauth, hparseF, spotifyApiRequest, hget, hapi,
          hlog, ← hlim100]
      | results r =>
        simp [callToolHandler, hauth, hparseF, spotifyApiRequest, hget, hapi,
          hlog, ← hlim100]
  · intro l
    cases l with
    | none => simp [searchLimitDefault, fetchLimitDefault]
    | some l =>
      by_cases hl : l = 0 <;>
        simp [searchLimitDefault, fetchLimitDefault, hl]

/-- Witness for C9: `search("hello", limit 0)` sends limit 20 and
`fetch_tracks("pl1", limit 0)` sends limit 100. -/
theorem C9_zero_limit_substituted_witness :
    (callToolHandler demoEnv demoState "s1" "search"
        ⟨none, none, none, none, some 0, some "hello", none, none⟩
        "st1").1.apiRequests =
      [⟨searchEndpoint "hello" (searchTypesDefault none) 20
          (searchMarketDefault none), "GET", none⟩] ∧
    (callToolHandler demoEnv demoState "s1" "fetch_tracks"
        ⟨none, none, some "pl1", none, some 0, none, none, none⟩
        "st1").1.apiRequests.head? =
      some ⟨fetchTracksEndpoint "pl1" (fetchOffsetDefault none) 100, "GET",
            none⟩ :=
  ⟨(C9_zero_limit_substituted demoEnv demoState "s1"
      ⟨none, none, none, none, some 0, some "hello", none, none⟩
      ⟨none, none, some "pl1", none, some 0, none, none, none⟩
      ⟨"hello", none, some 0, none⟩ ⟨"pl1", none, some 0⟩ "st1" demoSession
      (by rfl) (by decide) (by rfl) (by rfl) (by rfl) (by decide) (by rfl)
      (by rfl)).1,
   (C9_zero_limit_substituted demoEnv demoState "s1"
      ⟨none, none, none, none, some 0, some "hello", none, none⟩
      ⟨none, none, some "pl1", none, some 0, none, none, none⟩
      ⟨"hello", none, some 0, none⟩ ⟨"pl1", none, some 0⟩ "st1" demoSession
      (by rfl) (by decide) (by rfl) (by rfl) (by rfl) (by decide) (by rfl)
      (by rfl)).2.1⟩

/-- **C4.**  For every successful `fetch_tracks` call — the playlist-page
request answered with a page and the saved-status batch answered with a
flag list — the projected track list has exactly as many entries as the
page has items, and the projected track at every position `i` has
`is_saved` equal to position `i` of the saved-status response
(`none` standing for JavaScript `undefined` when that array is shorter). -/
theorem C4_fetch_tracks_zip (env : Env) (st : ServerState)
    (sessionId : String) (args : RawArgs) (fargs : FetchTracksArgs)
    (randomState : String) (sess : Session) (data : PlaylistPage)
    (savedStatus : List Bool)
    (hauth : Store.find? st.authSessions sessionId = some sess)
    (hfresh : env.now < sess.expiresAt)
    (hparse : fetchTracksParser args = .ok fargs)
    (hpage : env.api
        ⟨fetchTracksEndpoint fargs.playlistId (fetchOffsetDefault fargs.offset)
          (fetchLimitDefault fargs.limit), "GET", none⟩ = .ok (.page data))
    (hsaved : env.api
        ⟨containsTracksEndpoint (data.items.map (fun item => item.track.id)),
         "GET", none⟩ = .ok (.saved savedStatus)) :
    (callToolHandler env st sessionId "fetch_tracks" args randomState).2 =
      .ok ⟨["Loaded " ++
              toString (projectPlaylistItems data.items savedStatus).length ++
              " tracks from playlist."],
           some (.fetchTracksContent fargs.playlistId
                   (projectPlaylistItems data.items savedStatus) data.total)⟩ ∧
    (projectPlaylistItems data.items savedStatus).length = data.items.length ∧
    ∀ i (h : i < (projectPlaylistItems data.items savedStatus).length),
      ((projectPlaylistItems data.items savedStatus)[i]).is_saved =
        savedStatus.get? i := by
  have hget : getValidAccessToken env.refresh env.now st.authSessions sessionId =
      .ok (sess.accessToken, st.authSessions, 0) := by
    simp [getValidAccessToken, hauth, not_le.mpr hfresh]
  refine ⟨?_, ?_, ?_⟩
  · simp [callToolHandler, hauth, hparse, spotifyApiRequest, hget, hpage,
      hsaved]
  · simp [projectPlaylistItems]
  · intro i h
    simp [projectPlaylistItems]

/-- Witness for C4 on the two-track demo page: tracks 1 and 2 come back
with saved flags `true` and `false` respectively. -/
theorem C4_fetch_tracks_zip_witness :
    (callToolHandler demoEnv demoState "s1" "fetch_tracks"
        ⟨none, none, some "pl1", none, none, none, none, none⟩ "st1").2 =
      .ok ⟨["Loaded " ++
              toString (projectPlaylistItems demoPage.items
                [true, false]).length ++ " tracks from playlist."],
           some (.fetchTracksContent "pl1"
                   (projectPlaylistItems demoPage.items [true, false])
                   demoPage.total)⟩ ∧
    (projectPlaylistItems demoPage.items [true, false]).length = 2 :=
  ⟨(C4_fetch_tracks_zip demoEnv demoState "s1"
      ⟨none, none, some "pl1", none, none, none, none, none⟩
      ⟨"pl1", none, none⟩ "st1" demoSession demoPage [true, false] (by rfl)
      (by decide) (by rfl) (by rfl) (by rfl)).1,
   by
    rw [(C4_fetch_tracks_zip demoEnv demoState "s1"
      ⟨none, none, some "pl1", none, none, none, none, none⟩
      ⟨"pl1", none, none⟩ "st1" demoSession demoPage [true, false] (by rfl)
      (by decide) (by rfl) (by rfl) (by rfl)).2.1]
    rfl⟩

/-- **C6, counterexample.**  The handler checks the `error` query
parameter before `code`/`state`: a callback carrying
`error=access_denied` with code and state both absent returns the
authentication-failed page, not the missing-parameter error the claim
requires for every invocation with absent code or state. -/
theorem C6_counterexample :
    handleAuthCallback demoEnv ⟨[], [], [], 0, 0⟩ none none
        (some "access_denied") =
      (⟨[], [], [], 0, 0⟩, .authFailedPage "access_denied") ∧
    CallbackResult.authFailedPage "access_denied" ≠
      CallbackResult.missingParam :=
  ⟨rfl, by decide⟩

/-- **C6, amended.**  For every callback invocation carrying no `error`
query parameter: an absent (or empty) code or state yields the
missing-parameter error, and a state that is not a stored pending
authorization yields the invalid-state error; in both failure cases the
whole state — session store, pending store and the exchange counter — is
returned unchanged, so the token-exchange endpoint is never called. -/
theorem C6_callback_rejections (env : Env) (st : ServerState)
    (code state : Option String) :
    (code.getD "" = "" ∨ state.getD "" = "" →
      handleAuthCallback env st code state none = (st, .missingParam)) ∧
    (∀ s : String, state = some s → code.getD "" ≠ "" → s ≠ "" →
      Store.find? st.pendingAuthStates s = none →
      handleAuthCallback env st code state none = (st, .invalidState)) := by
  constructor
  · intro h
    simp [handleAuthCallback, h]
  · intro s hs hc hsne hfind
    subst hs
    have hcond : ¬(code.getD "" = "" ∨ (Option.getD (some s) "") = "") := by
      simp [hsne]
      intro hc2
      exact absurd hc2 hc
    simp [handleAuthCallback, hcond, hfind]
    exact ⟨hc, hsne⟩

/-- Witness for C6 (amended): a callback without code, and one with an
unknown state, both leave the demo state untouched. -/
theorem C6_callback_rejections_witness :
    handleAuthCallback demoEnv demoState none (some "st1") none =
      (demoState, .missingParam) ∧
    handleAuthCallback demoEnv demoState (some "c0") (some "ghost") none =
      (demoState, .invalidState) :=
  ⟨(C6_callback_rejections demoEnv demoState none (some "st1")).1
      (Or.inl (by rfl)),
   (C6_callback_rejections demoEnv demoState (some "c0") (some "ghost")).2
      "ghost" (by rfl) (by decide) (by decide) (by rfl)⟩

/-- **C7, counterexample.**  The ten-minute sweep runs only after the
state lookup succeeds: a callback with an unknown state returns
`invalidState` before sweeping, so a pending authorization created at
time 0 is still stored after a callback at time 700000 (more than ten
minutes later), contradicting the claim for unrelated invocations. -/
theorem C7_counterexample :
    handleAuthCallback
        ⟨"cid", "http://0.0.0.0:8000/auth/callback", fun _ => .error "down",
         fun _ => .error "down", fun _ => .error "down", 700000⟩
        ⟨[], [("old", ⟨"sess", 0⟩)], [], 0, 0⟩ (some "c") (some "unknown")
        none =
      (⟨[], [("old", ⟨"sess", 0⟩)], [], 0, 0⟩, .invalidState) ∧
    Store.find? [("old", (⟨"sess", 0⟩ : PendingAuth))] "old" =
      some ⟨"sess", 0⟩ ∧
    (700000 : Int) - 0 > 10 * 60 * 1000 :=
  ⟨rfl, rfl, by decide⟩

/-- **C7, amended.**  After any callback invocation that reaches the
sweep — no `error` parameter, code and state present and non-empty, and
the state matching a stored pending authorization — every pending
authorization whose creation time lies more than ten minutes before the
current time is absent from the store, whether or not the code exchange
succeeds. -/
theorem C7_sweep_on_matched_callback (env : Env) (st : ServerState)
    (code state : String) (pa : PendingAuth)
    (hcode : code ≠ "") (hstate : state ≠ "")
    (hfind : Store.find? st.pendingAuthStates state = some pa)
    (k : String) (v : PendingAuth)
    (hmem : Store.find?
        (handleAuthCallback env st (some code) (some state)
            none).1.pendingAuthStates k = some v) :
    env.now - v.createdAt ≤ 10 * 60 * 1000 := by
  have hcond : ¬((Option.getD (some code) "") = "" ∨
      (Option.getD (some state) "") = "") := by
    simp [hcode, hstate]
  rw [handleAuthCallback] at hmem
  rw [if_neg hcond] at hmem
  simp only [Option.getD_some] at hmem
  rw [hfind] at hmem
  cases hex : env.exchange code with
  | error msg =>
    rw [hex] at hmem
    simp only at hmem
    exact sweepPendingAuthStates_fresh (Store.find?_mem hmem)
  | ok tokenData =>
    rw [hex] at hmem
    simp only at hmem
    exact sweepPendingAuthStates_fresh
      (Store.mem_erase (Store.find?_mem hmem))

/-- Witness for C7 (amended): after a matched callback at time 700000,
the surviving entry "fresh" (created at 650000) is at most ten minutes
old — and indeed the stale entry created at time 0 has been swept. -/
theorem C7_sweep_on_matched_callback_witness :
    Store.find?
        (handleAuthCallback
            ⟨"cid", "http://0.0.0.0:8000/auth/callback",
             fun _ => .error "down", fun _ => .error "down",
             fun _ => .ok ⟨"acc", "ref", 3600⟩, 700000⟩
            ⟨[], [("old", ⟨"s", 0⟩), ("fresh", ⟨"s2", 650000⟩),
                 ("good", ⟨"s1", 660000⟩)], [], 0, 0⟩
            (some "c") (some "good") none).1.pendingAuthStates "fresh" =
      some ⟨"s2", 650000⟩ ∧
    (700000 : Int) - 650000 ≤ 10 * 60 * 1000 :=
  ⟨by rfl,
   C7_sweep_on_matched_callback
      ⟨"cid", "http://0.0.0.0:8000/auth/callback", fun _ => .error "down",
       fun _ => .error "down", fun _ => .ok ⟨"acc", "ref", 3600⟩, 700000⟩
      ⟨[], [("old", ⟨"s", 0⟩), ("fresh", ⟨"s2", 650000⟩),
           ("good", ⟨"s1", 660000⟩)], [], 0, 0⟩
      "c" "good" ⟨"s1", 660000⟩ (by decide) (by decide) (by rfl) "fresh"
      ⟨"s2", 650000⟩ (by rfl)⟩

end SpotifyMcp
